import Mathlib

/-!
Verification of the aad-pod-identity Windows NMI policy reconciliation engine
(`pkg/nmi/server/endpointpolicy.go`, `pkg/nmi/server/redirector_windows.go`,
the incremental Windows redirector variant, and the Windows health probe),
as a shallow embedding in Lean 4.

Modelling conventions:
* JSON bytes are modelled by inductive types with an explicit decode
  function: a `RawMsg` either is the canonical encoding of a `ProxyPolicy`
  (`RawMsg.enc`) or fails to unmarshal (`RawMsg.undec tag`); enumeration
  response bytes either decode to a list of `HNSEndpoint` or fail.
* The network-policy backend (`InvokeHNSRequestFunc`) is an external,
  possibly failing collaborator; it is modelled as a call-sequence oracle
  `raw : Nat -> Except e Bytes` giving the outcome of the i-th raw backend
  call made by the operation under study (1-indexed).
* `time.Sleep` calls are recorded as a trace of slept durations (in the
  source's time units: seconds); loops additionally report how many raw
  backend calls they consumed.
* Go slices are modelled faithfully including backing-array aliasing where
  the source depends on it: `updateEndpointPolicies` ranges over the
  original slice header while `append(ep[:i], ep[i+1:]...)` shifts the
  shared backing array in place, so later iterations read shifted elements.
-/

namespace AadPodIdentity

/-- Error-classification constants from `endpointpolicy.go`. -/
def InvalidOperation : String := "InvalidOperation"

/-- `NotFound` classification constant. -/
def NotFound : String := "NotFound"

/-- `UnKnown` classification constant (spelling as in the source). -/
def UnKnown : String := "UnKnown"

/-- `v1.ProxyPolicy`: the redirection-policy descriptor
`{Type: Proxy, IP, Port, Destination}` (the fixed `Type` tag is omitted). -/
structure ProxyPolicy where
  ip : String
  port : String
  destination : String
deriving DecidableEq, Repr

/-- A `json.RawMessage` policy entry: either the canonical JSON encoding of
a `ProxyPolicy` (which `json.Unmarshal` decodes back), or bytes on which
unmarshalling into `v1.ProxyPolicy` fails (`undec`, distinguished by a tag). -/
inductive RawMsg where
  | enc (p : ProxyPolicy)
  | undec (tag : Nat)
deriving DecidableEq, Repr

/-- `json.Unmarshal(p, &proxyPolicy)` on one policy entry. -/
def unmarshalProxyPolicy : RawMsg → Option ProxyPolicy
  | RawMsg.enc p => some p
  | RawMsg.undec _ => none

/-- The decoded target address of a policy entry, when it decodes. -/
def decodedIP (p : RawMsg) : Option String :=
  (unmarshalProxyPolicy p).map ProxyPolicy.ip

/-- In-place left shift performed by `append(ep[:index], ep[index+1:]...)`
on a backing array `b` when the current slice `ep` has length `m`:
positions `index .. m-2` receive the old `index+1 .. m-1`, positions
`m-1 .. n-1` of the backing array keep their old values. -/
def shiftRemove (b : List RawMsg) (index m : Nat) : List RawMsg :=
  b.take index ++ (b.drop (index + 1)).take (m - index - 1) ++ b.drop (m - 1)

/-- The loop of `updateEndpointPolicies` (endpointpolicy.go lines 227-244).
The source's `for i, p := range policies` runs `i` from `0` to `n-1` where
`n` is the length of the original `policies` slice (the range header
captured before any mutation); `remaining = n - i` drives the recursion.
`b` is the current backing array, `r` the number of removals so far (the
source's `count + 1`).  Each iteration reads `b[i]` — the mutated backing
array, exactly as Go's `range` does after `append` has shifted the shared
backing — and on a decodable entry whose `IP` equals `metadataIP` removes
position `i - r` (the source's `index = i - count`) from the current
slice of length `n - r`. -/
def updateEndpointPoliciesLoop (metadataIP : String) (n : Nat) :
    Nat → List RawMsg → Nat → Nat → List RawMsg × Nat
  | 0, b, r, _ => (b, r)
  | remaining + 1, b, r, i =>
    match unmarshalProxyPolicy (b.getD i (RawMsg.undec 0)) with
    | some pp =>
      if pp.ip = metadataIP then
        updateEndpointPoliciesLoop metadataIP n remaining
          (shiftRemove b (i - r) (n - r)) (r + 1) (i + 1)
      else
        updateEndpointPoliciesLoop metadataIP n remaining b r (i + 1)
    | none => updateEndpointPoliciesLoop metadataIP n remaining b r (i + 1)

/-- `updateEndpointPolicies(policies, metadataIP)`: removes entries whose
decoded `IP` equals `metadataIP` by repeated `append(ep[:index], ep[index+1:]...)`
while ranging over the original slice (shared backing array); the returned
slice is the first `n - removals` positions of the final backing array. -/
def updateEndpointPolicies (policies : List RawMsg) (metadataIP : String) :
    List RawMsg :=
  let n := policies.length
  let res := updateEndpointPoliciesLoop metadataIP n n policies 0 0
  res.1.take (n - res.2)

/-- The policy-collection computation of `addEndpointPolicy`
(endpointpolicy.go lines 135-150): first `updateEndpointPolicies`, then
append the freshly marshalled `ProxyPolicy{IP: metadataIP, Port:
metadataPort, Destination: nmiIP ++ ":" ++ nmiPort}`. -/
def addEndpointPolicyPolicies (policies : List RawMsg)
    (metadataIP metadataPort nmiIP nmiPort : String) : List RawMsg :=
  updateEndpointPolicies policies metadataIP ++
    [RawMsg.enc ⟨metadataIP, metadataPort, nmiIP ++ ":" ++ nmiPort⟩]

/-- Number of entries of a policy collection whose decoded target address
is `t`. -/
def countTarget (policies : List RawMsg) (t : String) : Nat :=
  (policies.filter (fun p => decodedIP p = some t)).length

/-- The IMDS metadata address used as the redirection target in deployment. -/
def tIP : String := "169.254.169.254"

/-- A first sample redirection-policy entry targeting `tIP`. -/
def pT1 : RawMsg := RawMsg.enc ⟨tIP, "80", "10.0.0.1:2579"⟩

/-- A second, distinct sample redirection-policy entry targeting `tIP`. -/
def pT2 : RawMsg := RawMsg.enc ⟨tIP, "80", "10.0.0.2:2579"⟩

/-- A sample policy entry whose decoded target address differs from `tIP`. -/
def pX : RawMsg := RawMsg.enc ⟨"10.9.9.9", "80", "10.0.0.1:2579"⟩

/-- `v1.HNSEndpoint`, restricted to the fields the core reads: the opaque
identifier, the IP address (as its string rendering), and the ordered
policy collection. -/
structure HNSEndpoint where
  id : String
  ipAddress : String
  policies : List RawMsg
deriving DecidableEq, Repr

/-! ## The Backend Gateway: `callHcnProxyAgent` -/

/-- Raw backend response bytes: either bytes that `json.Unmarshal` decodes
into a `[]v1.HNSEndpoint` enumeration, or bytes on which that decode fails
(e.g. a `Modify` response body), distinguished by a tag. -/
inductive Bytes where
  | endpointList (eps : List HNSEndpoint)
  | other (tag : Nat)
deriving DecidableEq

/-- `json.Unmarshal(response, &endpoints)` into `[]v1.HNSEndpoint`. -/
def unmarshalEndpoints : Bytes → Option (List HNSEndpoint)
  | Bytes.endpointList eps => some eps
  | Bytes.other _ => none

/-- The retry loop of `callHcnProxyAgent` (endpointpolicy.go lines
188-213).  `backend i` is the outcome of the i-th raw
`callHcnProxyAgentInternal` call (`attempt` starts at 1); `retriesLeft`
equals the source's `maxRetryCount - (retryCount - 1)` (initially 4);
`sleepFactor` starts at 1 and doubles after each failed attempt.  Returns
the final outcome, the list of slept durations, and the number of raw
calls consumed. -/
def hcnRetryLoop {e a : Type} (backend : Nat → Except e a) :
    Nat → Nat → Nat → Except e a × List Nat × Nat
  | attempt, retriesLeft, sleepFactor =>
    match backend attempt with
    | Except.ok r => (Except.ok r, [], 1)
    | Except.error err =>
      match retriesLeft with
      | 0 => (Except.error err, [], 1)
      | n + 1 =>
        let rest := hcnRetryLoop backend (attempt + 1) n (sleepFactor * 2)
        (rest.1, sleepFactor :: rest.2.1, rest.2.2 + 1)

/-- `callHcnProxyAgent(req)`: retryCount starts at 1, maxRetryCount is 4,
sleepFactor starts at 1. -/
def callHcnProxyAgent {e a : Type} (backend : Nat → Except e a) :
    Except e a × List Nat × Nat :=
  hcnRetryLoop backend 1 4 1

/-! ## The Endpoint Locator: `getEndpointByIP` -/

/-- `endpointPolicyError{errType, err}`: the typed error of
endpointpolicy.go.  `cause` is the wrapped transport error when the error
wraps one (`InvalidOperation` from a gateway failure); it is `none` for
the unmarshal-failure and not-found messages, which the source constructs
locally. -/
structure EndpointPolicyError (e : Type) where
  errType : String
  cause : Option e
deriving DecidableEq

/-- The loop of `getEndpointByIP` (endpointpolicy.go lines 90-133).
Each iteration issues one gateway call (`callHcnProxyAgent` of the
`Enumerate` request) against the raw-call oracle shifted by the raw calls
already consumed (`offset`); a gateway error or an unmarshal error returns
an `InvalidOperation` error immediately; a scan hit returns the endpoint
immediately; on a miss, `retriesLeft` (the source's
`maxRetryCount - (retryCount - 1)`, initially 4) gates a sleep of
`sleepFactor` (doubling) and another iteration, and when exhausted the
loop breaks with a `NotFound` error.  Returns the outcome, the list of
durations slept by this loop itself (the gateway's own sleeps are not
included), and the total number of raw backend calls consumed. -/
def getEndpointLoop {e : Type} (raw : Nat → Except e Bytes) (ip : String) :
    Nat → Nat → Nat → Except (EndpointPolicyError e) HNSEndpoint × List Nat × Nat
  | offset, retriesLeft, sleepFactor =>
    let gw := callHcnProxyAgent (fun i => raw (offset + i))
    match gw.1 with
    | Except.error err => (Except.error ⟨InvalidOperation, some err⟩, [], gw.2.2)
    | Except.ok bytes =>
      match unmarshalEndpoints bytes with
      | none => (Except.error ⟨InvalidOperation, none⟩, [], gw.2.2)
      | some endpoints =>
        match endpoints.find? (fun ep => ep.ipAddress == ip) with
        | some ep => (Except.ok ep, [], gw.2.2)
        | none =>
          match retriesLeft with
          | 0 => (Except.error ⟨NotFound, none⟩, [], gw.2.2)
          | n + 1 =>
            let rest := getEndpointLoop raw ip (offset + gw.2.2) n (sleepFactor * 2)
            (rest.1, sleepFactor :: rest.2.1, gw.2.2 + rest.2.2)

/-- `getEndpointByIP(ip)`: retryCount starts at 1, maxRetryCount is 4,
sleepFactor starts at 1, no raw calls consumed yet. -/
def getEndpointByIP {e : Type} (raw : Nat → Except e Bytes) (ip : String) :
    Except (EndpointPolicyError e) HNSEndpoint × List Nat × Nat :=
  getEndpointLoop raw ip 0 4 1

/-! ## The route-policy operations: `ApplyEndpointRoutePolicy` and
`DeleteEndpointRoutePolicy` -/

/-- The error value returned by `ApplyEndpointRoutePolicy` /
`DeleteEndpointRoutePolicy`: the missing-IP error, a wrapper of the
`getEndpointByIP` error, or a wrapper of the mutation
(`addEndpointPolicy` / `deleteEndpointPolicy`) error. -/
inductive RoutePolicyErr (e : Type) where
  | missingIP
  | getEndpoint (inner : EndpointPolicyError e)
  | mutation (inner : e)
deriving DecidableEq

/-- `addEndpointPolicy` (endpointpolicy.go lines 135-166): rewrite the
policy collection (`updateEndpointPolicies` then append the new marshalled
policy), marshal the endpoint and push a `Modify` request through the
gateway starting at raw-call offset `offset`.  Marshalling of the policy
and of the endpoint is total in the model (the source's `json.Marshal`
cannot fail on these struct values).  Returns the error outcome of the
gateway call and the raw calls consumed. -/
def addEndpointPolicy {e : Type} (raw : Nat → Except e Bytes) (offset : Nat)
    (endpoint : HNSEndpoint) (metadataIP metadataPort nmiIP nmiPort : String) :
    Option e × Nat :=
  let _newPolicies :=
    addEndpointPolicyPolicies endpoint.policies metadataIP metadataPort nmiIP nmiPort
  let gw := callHcnProxyAgent (fun i => raw (offset + i))
  (match gw.1 with
   | Except.error err => some err
   | Except.ok _ => none, gw.2.2)

/-- `deleteEndpointPolicy` (endpointpolicy.go lines 168-186): rewrite the
policy collection by `updateEndpointPolicies` only, then push the `Modify`
request through the gateway. -/
def deleteEndpointPolicy {e : Type} (raw : Nat → Except e Bytes) (offset : Nat)
    (endpoint : HNSEndpoint) (metadataIP : String) : Option e × Nat :=
  let _newPolicies := updateEndpointPolicies endpoint.policies metadataIP
  let gw := callHcnProxyAgent (fun i => raw (offset + i))
  (match gw.1 with
   | Except.error err => some err
   | Except.ok _ => none, gw.2.2)

/-- `ApplyEndpointRoutePolicy(podIP, metadataIP, metadataPort, nmiIP,
nmiPort)` (endpointpolicy.go lines 36-60).  Returns the error (as
`Option`, `none` = nil), the classification string (second return value),
and the number of raw backend calls issued. -/
def applyEndpointRoutePolicy {e : Type} (raw : Nat → Except e Bytes)
    (podIP metadataIP metadataPort nmiIP nmiPort : String) :
    Option (RoutePolicyErr e) × String × Nat :=
  if podIP = "" then (some RoutePolicyErr.missingIP, NotFound, 0)
  else
    match getEndpointByIP raw podIP with
    | (Except.error epErr, _, used) =>
      if epErr.errType = InvalidOperation then
        (some (RoutePolicyErr.getEndpoint epErr), epErr.errType, used)
      else if epErr.errType = NotFound then
        (none, "", used)
      else
        (some (RoutePolicyErr.getEndpoint epErr), UnKnown, used)
    | (Except.ok endpoint, _, used) =>
      match addEndpointPolicy raw used endpoint metadataIP metadataPort nmiIP nmiPort with
      | (some err, used2) => (some (RoutePolicyErr.mutation err), UnKnown, used + used2)
      | (none, used2) => (none, "", used + used2)

/-- `DeleteEndpointRoutePolicy(podIP, metadataIP)` (endpointpolicy.go
lines 63-88). -/
def deleteEndpointRoutePolicy {e : Type} (raw : Nat → Except e Bytes)
    (podIP metadataIP : String) :
    Option (RoutePolicyErr e) × String × Nat :=
  if podIP = "" then (some RoutePolicyErr.missingIP, NotFound, 0)
  else
    match getEndpointByIP raw podIP with
    | (Except.error epErr, _, used) =>
      if epErr.errType = InvalidOperation then
        (some (RoutePolicyErr.getEndpoint epErr), epErr.errType, used)
      else if epErr.errType = NotFound then
        (none, "", used)
      else
        (some (RoutePolicyErr.getEndpoint epErr), UnKnown, used)
    | (Except.ok endpoint, _, used) =>
      match deleteEndpointPolicy raw used endpoint metadataIP with
      | (some err, used2) => (some (RoutePolicyErr.mutation err), UnKnown, used + used2)
      | (none, used2) => (none, "", used + used2)

/-! ## The Reconciliation Loop (redirector_windows.go) -/

/-- The fields of `Server` read by the redirector. -/
structure ServerCfg where
  nodeName : String
  hostIP : String
  metadataIP : String
  metadataPort : String
  nmiPort : String
deriving DecidableEq, Repr

/-- The fields of a `v1.Pod` read by the redirector. -/
structure Pod where
  uid : String
  name : String
  nodeName : String
  podIP : String
  hostIP : String
deriving DecidableEq, Repr

/-- Observable actions of the reconciliation loop. -/
inductive SyncAction where
  | applyPolicy (podIP : String)
  | removePolicy (podIP : String)
  | sleep (seconds : Nat)
  | reconcileAll
  | exitProcess (code : Nat)
deriving DecidableEq, Repr

/-- `RoutePolicySelfHeal` (redirector_windows.go lines 72-77): sleep 10
seconds, then `ApplyRoutePolicyForExistingPods` (full reconciliation). -/
def routePolicySelfHeal : List SyncAction :=
  [SyncAction.sleep 10, SyncAction.reconcileAll]

/-- The in-scope test of the event-driven phase (redirector_windows.go
line 53): `pod.Status.PodIP != "" && server.NodeName == pod.Spec.NodeName
&& server.HostIP != pod.Status.PodIP`. -/
def syncPodInScope (srv : ServerCfg) (pod : Pod) : Bool :=
  pod.podIP != "" && srv.nodeName == pod.nodeName && srv.hostIP != pod.podIP

/-- One `pod = <-server.PodObjChannel` iteration of `Sync`
(redirector_windows.go lines 52-66), parameterized by the result
`(err, t)` that `ApplyEndpointRoutePolicy` returns for this pod's IP: if
the pod is in scope the apply call is issued, and when it errors with a
classification other than `NotFound`, `RoutePolicySelfHeal` runs. -/
def syncPodEventActions {e : Type} (srv : ServerCfg) (pod : Pod)
    (applyResult : Option e × String) : List SyncAction :=
  if syncPodInScope srv pod then
    SyncAction.applyPolicy pod.podIP ::
      (match applyResult with
       | (some _, t) => if t ≠ NotFound then routePolicySelfHeal else []
       | (none, _) => [])
  else []

/-- The in-scope test of `ApplyRoutePolicyForExistingPods`
(redirector_windows.go line 89). -/
def reconcilePodInScope (srv : ServerCfg) (pod : Pod) : Bool :=
  pod.nodeName == srv.nodeName && pod.podIP != "" && pod.podIP != srv.hostIP

/-- `ApplyRoutePolicyForExistingPods` (redirector_windows.go lines
80-100): the apply calls issued over a pod listing (a listing failure is
logged and yields an empty listing; per-pod errors are logged and do not
stop the loop). -/
def applyRoutePolicyForExistingPods {e : Type} (srv : ServerCfg)
    (listing : Except e (List Pod)) : List SyncAction :=
  let listPods := match listing with
    | Except.error _ => []
    | Except.ok pods => pods
  listPods.flatMap (fun podItem =>
    if reconcilePodInScope srv podItem then
      [SyncAction.applyPolicy podItem.podIP]
    else [])

/-- `DeleteRoutePolicyForExistingPods` (redirector_windows.go lines
103-132): one remove call per listed pod on this node (no empty-IP or
host-IP exclusion), then always the 10-second grace sleep, then process
exit with code 0, or 1 when the listing failed. -/
def deleteRoutePolicyForExistingPods {e : Type} (srv : ServerCfg)
    (listing : Except e (List Pod)) : List SyncAction :=
  let exitCode := match listing with
    | Except.error _ => 1
    | Except.ok _ => 0
  let listPods := match listing with
    | Except.error _ => []
    | Except.ok pods => pods
  listPods.flatMap (fun podItem =>
    if podItem.nodeName == srv.nodeName then
      [SyncAction.removePolicy podItem.podIP]
    else [])
  ++ [SyncAction.sleep 10, SyncAction.exitProcess exitCode]

/-! ## The incremental Windows variant (`WindowsRedirector.Sync` and the
package-level `podMap`) -/

/-- `podMap[uid]` lookup on the association-list model of the Go map. -/
def podMapLookup (m : List (String × String)) (uid : String) : Option String :=
  (m.find? (fun kv => kv.1 == uid)).map Prod.snd

/-- `delete(podMap, uid)`. -/
def podMapDelete (m : List (String × String)) (uid : String) :
    List (String × String) :=
  m.filter (fun kv => kv.1 != uid)

/-- One pod-event iteration of the incremental `WindowsRedirector.Sync`:
guarded only by `NodeName == pod.Spec.NodeName && HostIP != pod.Status.PodIP`
(no empty-IP check).  A pod already in `podMap` gets a remove call
targeting the recorded IP and its entry deleted; otherwise the entry
`(uid, pod.Status.PodIP)` is stored first and the apply call is issued,
its result ignored.  Returns the issued calls and the updated map. -/
def incrSyncEvent (srv : ServerCfg) (m : List (String × String)) (pod : Pod) :
    List SyncAction × List (String × String) :=
  if srv.nodeName == pod.nodeName && srv.hostIP != pod.podIP then
    match podMapLookup m pod.uid with
    | some recordedIP =>
      ([SyncAction.removePolicy recordedIP], podMapDelete m pod.uid)
    | none =>
      ([SyncAction.applyPolicy pod.podIP], m ++ [(pod.uid, pod.podIP)])
  else ([], m)

/-! ## The extended Windows health probe (`initNMIWindowsHealthProbe`,
`removeTaint`) -/

/-- A node taint, restricted to the fields the probe touches. -/
structure Taint where
  key : String
  effect : String
deriving DecidableEq, Repr

/-- The fixed unschedulable marker the probe manages. -/
def hcnAgentFailedTaint : Taint := ⟨"hcnagentfailed", "NoSchedule"⟩

/-- `removeTaint(taints, taintName)`: keep, in order, every taint whose
key differs from `taintName`. -/
def removeTaintFn (taints : List Taint) (taintName : String) : List Taint :=
  taints.filter (fun t => t.key != taintName)

/-- The taint manipulation and status code of one `healthz` invocation of
`initNMIWindowsHealthProbe`, as a function of whether the enumerate call
to the hcn agent failed and of the node's current taint list (the
node-marking collaborator's get/update pair is modelled as a read and a
write of that list): on failure, append the fixed marker and answer 500;
on success, remove every taint with the fixed key and answer 200. -/
def nmiWindowsHealthProbe (enumerateFailed : Bool) (taints : List Taint) :
    Nat × List Taint :=
  if enumerateFailed then
    (500, taints ++ [hcnAgentFailedTaint])
  else
    (200, removeTaintFn taints hcnAgentFailedTaint.key)

/-! ## Concrete sample inputs used by witnesses and counterexamples -/

/-- A sample server configuration. -/
def cfg0 : ServerCfg := ⟨"node-1", "10.240.0.4", "169.254.169.254", "80", "2579"⟩

/-- A sample in-scope pod on `cfg0`. -/
def podGood : Pod := ⟨"uid-1", "pod-1", "node-1", "10.0.0.5", "10.240.0.4"⟩

/-- A sample pod on this node whose pod IP is still empty. -/
def podEmptyIP : Pod := ⟨"uid-2", "pod-2", "node-1", "", "10.240.0.4"⟩

/-- A backend whose every enumeration succeeds but never contains the
sought endpoint. -/
def rawEmptyEnum : Nat → Except String Bytes :=
  fun _ => Except.ok (Bytes.endpointList [])

/-- A backend that fails twice and answers on the third raw attempt. -/
def backendThird : Nat → Except String Nat :=
  fun j => if j = 3 then Except.ok 7 else Except.error "transient"

/-- A sample endpoint for IP `10.0.0.5` with no policies. -/
def epW : HNSEndpoint := ⟨"ep-1", "10.0.0.5", []⟩

/-- A backend whose first three enumerations are empty and whose fourth
contains the sought endpoint. -/
def rawLateMatch : Nat → Except String Bytes :=
  fun j =>
    if j ≤ 3 then Except.ok (Bytes.endpointList [])
    else Except.ok (Bytes.endpointList [epW])

/-! ## Helper lemmas -/

/-- A guarded singleton flatMap is a filter followed by a map. -/
theorem flatMap_guard_eq_filter_map {α β : Type} (p : α → Bool) (f : α → β) :
    ∀ l : List α,
      l.flatMap (fun a => if p a then [f a] else []) = (l.filter p).map f
  | [] => rfl
  | a :: t => by
    cases h : p a <;>
      simp [List.filter_cons, h, flatMap_guard_eq_filter_map p f t]

/-- The classification constants are pairwise distinguishable strings. -/
theorem string_nf_ne_io : NotFound ≠ InvalidOperation := by decide

/-- The empty classification is not `NotFound`. -/
theorem string_empty_ne_nf : ("" : String) ≠ NotFound := by decide

/-- The `UnKnown` classification is not `NotFound`. -/
theorem string_uk_ne_nf : UnKnown ≠ NotFound := by decide

/-! ## Claims -/

/-- C1: evaluation of the code at the failing input.  Starting from an
endpoint whose policy collection is `[pT1, pT1, pT1, pT1, pX]` (four
entries whose decoded target address is `tIP` and one unrelated entry),
applying the redirection policy for `tIP` twice in a row leaves a policy
collection with TWO entries whose decoded target address is `tIP`, not
exactly one: the removal scan of `updateEndpointPolicies` ranges over the
original slice header while `append(ep[:index], ep[index+1:]...)` shifts
the shared backing array, so later iterations read already-shifted
elements and skip matching entries. -/
theorem addEndpointPolicy_twice_two_entries :
    countTarget
      (addEndpointPolicyPolicies
        (addEndpointPolicyPolicies [pT1, pT1, pT1, pT1, pX] tIP "80" "10.240.0.4" "2579")
        tIP "80" "10.240.0.4" "2579") tIP = 2 := by decide

/-- C2: evaluation of the code at the failing input.  On the collection
`[pT1, pT2, pX]` with two entries whose decoded target address is `tIP`,
`updateEndpointPolicies` returns `[pT2, pX]` — the second matching entry
survives — whereas removing exactly the entries whose decoded target
address equals `tIP` would return `[pX]`. -/
theorem updateEndpointPolicies_second_match_survives :
    updateEndpointPolicies [pT1, pT2, pX] tIP = [pT2, pX] ∧
    countTarget (updateEndpointPolicies [pT1, pT2, pX] tIP) tIP = 1 ∧
    List.filter (fun p => !(decodedIP p == some tIP)) [pT1, pT2, pX] = [pX] := by
  decide

/-- C3: the Backend Gateway makes at most 5 total attempts of the raw
backend call: it returns the response of the first successful attempt `k`
(1 ≤ k ≤ 5) having slept the first `k - 1` durations of `1, 2, 4, 8`
between consecutive failed attempts, and when all 5 attempts fail it
returns the error of the 5th (last) attempt unchanged after sleeping
`1, 2, 4, 8`. -/
theorem callHcnProxyAgent_retry {e a : Type} (backend : Nat → Except e a) :
    (∀ k r, 1 ≤ k → k ≤ 5 →
      (∀ j, 1 ≤ j → j < k → ∃ err, backend j = Except.error err) →
      backend k = Except.ok r →
      callHcnProxyAgent backend = (Except.ok r, List.take (k - 1) [1, 2, 4, 8], k)) ∧
    ((∀ j, 1 ≤ j → j ≤ 5 → ∃ err, backend j = Except.error err) →
      ∃ err, backend 5 = Except.error err ∧
        callHcnProxyAgent backend = (Except.error err, [1, 2, 4, 8], 5)) := by
  constructor
  · intro k r hk1 hk5 hfail hsucc
    interval_cases k
    · simp [callHcnProxyAgent, hcnRetryLoop, hsucc]
    · obtain ⟨e1, h1⟩ := hfail 1 (by norm_num) (by norm_num)
      simp [callHcnProxyAgent, hcnRetryLoop, h1, hsucc]
    · obtain ⟨e1, h1⟩ := hfail 1 (by norm_num) (by norm_num)
      obtain ⟨e2, h2⟩ := hfail 2 (by norm_num) (by norm_num)
      simp [callHcnProxyAgent, hcnRetryLoop, h1, h2, hsucc]
    · obtain ⟨e1, h1⟩ := hfail 1 (by norm_num) (by norm_num)
      obtain ⟨e2, h2⟩ := hfail 2 (by norm_num) (by norm_num)
      obtain ⟨e3, h3⟩ := hfail 3 (by norm_num) (by norm_num)
      simp [callHcnProxyAgent, hcnRetryLoop, h1, h2, h3, hsucc]
    · obtain ⟨e1, h1⟩ := hfail 1 (by norm_num) (by norm_num)
      obtain ⟨e2, h2⟩ := hfail 2 (by norm_num) (by norm_num)
      obtain ⟨e3, h3⟩ := hfail 3 (by norm_num) (by norm_num)
      obtain ⟨e4, h4⟩ := hfail 4 (by norm_num) (by norm_num)
      simp [callHcnProxyAgent, hcnRetryLoop, h1, h2, h3, h4, hsucc]
  · intro hfail
    obtain ⟨e1, h1⟩ := hfail 1 (by norm_num) (by norm_num)
    obtain ⟨e2, h2⟩ := hfail 2 (by norm_num) (by norm_num)
    obtain ⟨e3, h3⟩ := hfail 3 (by norm_num) (by norm_num)
    obtain ⟨e4, h4⟩ := hfail 4 (by norm_num) (by norm_num)
    obtain ⟨e5, h5⟩ := hfail 5 (by norm_num) (by norm_num)
    exact ⟨e5, h5, by simp [callHcnProxyAgent, hcnRetryLoop, h1, h2, h3, h4, h5]⟩

/-- C3 witness: against a backend that fails twice and answers on the
third raw attempt, the gateway returns that answer after sleeping 1 and 2
time units. -/
theorem callHcnProxyAgent_retry_witness :
    callHcnProxyAgent backendThird = (Except.ok 7, [1, 2], 3) :=
  (callHcnProxyAgent_retry backendThird).1 3 7 (by norm_num) (by norm_num)
    (by
      intro j hj1 hj3
      interval_cases j
      · exact ⟨"transient", rfl⟩
      · exact ⟨"transient", rfl⟩)
    rfl

/-- C4: the Endpoint Locator is a two-tier retry.  (a) When every raw
backend call fails, the gateway budget (5 raw attempts) is consumed once
and the locator returns an `InvalidOperation` error wrapping the last
transport error with no outer retry (no locator sleeps).  (b) An
undecodable enumeration yields `InvalidOperation` immediately.  (c) An
enumeration containing a matching endpoint returns it immediately.
(d) Five matchless enumerations yield `NotFound` after outer sleeps
`1, 2, 4, 8`.  (e) Three matchless enumerations followed by a match yield
the endpoint without escalation after outer sleeps `1, 2, 4`. -/
theorem getEndpointByIP_locator {e : Type} (raw : Nat → Except e Bytes) (ip : String) :
    ((∀ j, 1 ≤ j → j ≤ 5 → ∃ err, raw j = Except.error err) →
      ∃ err, raw 5 = Except.error err ∧
        getEndpointByIP raw ip =
          (Except.error ⟨InvalidOperation, some err⟩, [], 5)) ∧
    (∀ tag, raw 1 = Except.ok (Bytes.other tag) →
      getEndpointByIP raw ip = (Except.error ⟨InvalidOperation, none⟩, [], 1)) ∧
    (∀ eps ep, raw 1 = Except.ok (Bytes.endpointList eps) →
      eps.find? (fun x => x.ipAddress == ip) = some ep →
      getEndpointByIP raw ip = (Except.ok ep, [], 1)) ∧
    (∀ l1 l2 l3 l4 l5,
      raw 1 = Except.ok (Bytes.endpointList l1) →
      l1.find? (fun x => x.ipAddress == ip) = none →
      raw 2 = Except.ok (Bytes.endpointList l2) →
      l2.find? (fun x => x.ipAddress == ip) = none →
      raw 3 = Except.ok (Bytes.endpointList l3) →
      l3.find? (fun x => x.ipAddress == ip) = none →
      raw 4 = Except.ok (Bytes.endpointList l4) →
      l4.find? (fun x => x.ipAddress == ip) = none →
      raw 5 = Except.ok (Bytes.endpointList l5) →
      l5.find? (fun x => x.ipAddress == ip) = none →
      getEndpointByIP raw ip = (Except.error ⟨NotFound, none⟩, [1, 2, 4, 8], 5)) ∧
    (∀ l1 l2 l3 l4 ep,
      raw 1 = Except.ok (Bytes.endpointList l1) →
      l1.find? (fun x => x.ipAddress == ip) = none →
      raw 2 = Except.ok (Bytes.endpointList l2) →
      l2.find? (fun x => x.ipAddress == ip) = none →
      raw 3 = Except.ok (Bytes.endpointList l3) →
      l3.find? (fun x => x.ipAddress == ip) = none →
      raw 4 = Except.ok (Bytes.endpointList l4) →
      l4.find? (fun x => x.ipAddress == ip) = some ep →
      getEndpointByIP raw ip = (Except.ok ep, [1, 2, 4], 4)) := by
  refine ⟨?_, ?_, ?_, ?_, ?_⟩
  · intro hfail
    obtain ⟨e1, h1⟩ := hfail 1 (by norm_num) (by norm_num)
    obtain ⟨e2, h2⟩ := hfail 2 (by norm_num) (by norm_num)
    obtain ⟨e3, h3⟩ := hfail 3 (by norm_num) (by norm_num)
    obtain ⟨e4, h4⟩ := hfail 4 (by norm_num) (by norm_num)
    obtain ⟨e5, h5⟩ := hfail 5 (by norm_num) (by norm_num)
    exact ⟨e5, h5, by
      simp [getEndpointByIP, getEndpointLoop, callHcnProxyAgent, hcnRetryLoop,
        h1, h2, h3, h4, h5]⟩
  · intro tag h1
    simp [getEndpointByIP, getEndpointLoop, callHcnProxyAgent, hcnRetryLoop, h1,
      unmarshalEndpoints]
  · intro eps ep h1 hfind
    simp [getEndpointByIP, getEndpointLoop, callHcnProxyAgent, hcnRetryLoop, h1,
      unmarshalEndpoints, hfind]
  · intro l1 l2 l3 l4 l5 h1 f1 h2 f2 h3 f3 h4 f4 h5 f5
    simp [getEndpointByIP, getEndpointLoop, callHcnProxyAgent, hcnRetryLoop,
      h1, f1, h2, f2, h3, f3, h4, f4, h5, f5, unmarshalEndpoints]
  · intro l1 l2 l3 l4 ep h1 f1 h2 f2 h3 f3 h4 f4
    simp [getEndpointByIP, getEndpointLoop, callHcnProxyAgent, hcnRetryLoop,
      h1, f1, h2, f2, h3, f3, h4, f4, unmarshalEndpoints]

/-- C4 witness: against a backend whose first three enumerations contain
no match and whose fourth contains the endpoint, the locator succeeds
after outer sleeps 1, 2, 4. -/
theorem getEndpointByIP_locator_witness :
    getEndpointByIP rawLateMatch "10.0.0.5" = (Except.ok epW, [1, 2, 4], 4) :=
  (getEndpointByIP_locator rawLateMatch "10.0.0.5").2.2.2.2 [] [] [] [epW] epW
    rfl rfl rfl rfl rfl rfl rfl rfl

/-- C5 counterexample: the incremental variant's event phase issues a
policy-apply call for a pod whose pod IP is empty — `podEmptyIP` is on
this node, its IP differs from the host IP, and `incrSyncEvent` issues
`applyPolicy ""` for it, so an apply is not issued only for pods with a
non-empty IP. -/
theorem incrSync_applies_empty_ip_pod :
    (incrSyncEvent cfg0 [] podEmptyIP).1 = [SyncAction.applyPolicy ""] ∧
    podEmptyIP.podIP = "" := by decide

/-- C5 (amended): in the primary event-driven phase and in full
reconciliation an apply call is issued only for a pod on this node with a
non-empty pod IP differing from the host IP (and a failed listing issues
none); in the incremental variant's event phase an apply call is issued
only for an unmapped pod on this node whose pod IP differs from the host
IP — the empty-IP exclusion is not enforced there. -/
theorem applyScope {eo : Type} (srv : ServerCfg) (pod : Pod)
    (applyResult : Option eo × String) (m : List (String × String))
    (pods : List Pod) (ip : String) :
    (SyncAction.applyPolicy ip ∈ syncPodEventActions srv pod applyResult →
      pod.nodeName = srv.nodeName ∧ pod.podIP ≠ "" ∧ pod.podIP ≠ srv.hostIP ∧
        ip = pod.podIP) ∧
    (SyncAction.applyPolicy ip ∈
        applyRoutePolicyForExistingPods srv (Except.ok pods : Except eo (List Pod)) →
      ∃ p, p ∈ pods ∧ p.nodeName = srv.nodeName ∧ p.podIP ≠ "" ∧
        p.podIP ≠ srv.hostIP ∧ ip = p.podIP) ∧
    (∀ lerr : eo,
      applyRoutePolicyForExistingPods srv
        (Except.error lerr : Except eo (List Pod)) = []) ∧
    (SyncAction.applyPolicy ip ∈ (incrSyncEvent srv m pod).1 →
      pod.nodeName = srv.nodeName ∧ pod.podIP ≠ srv.hostIP ∧ ip = pod.podIP ∧
        podMapLookup m pod.uid = none) := by
  refine ⟨?_, ?_, fun _ => rfl, ?_⟩
  · intro hmem
    by_cases h : syncPodInScope srv pod
    · obtain ⟨⟨hip, hnode⟩, hhost⟩ :
          (pod.podIP ≠ "" ∧ srv.nodeName = pod.nodeName) ∧ srv.hostIP ≠ pod.podIP := by
        simpa [syncPodInScope, and_assoc] using h
      rcases applyResult with ⟨o, t⟩
      cases o with
      | none =>
        simp [syncPodEventActions, h] at hmem
        exact ⟨hnode.symm, hip, fun hx => hhost hx.symm, hmem⟩
      | some eobj =>
        by_cases ht : t ≠ NotFound
        · simp [syncPodEventActions, h, ht, routePolicySelfHeal] at hmem
          exact ⟨hnode.symm, hip, fun hx => hhost hx.symm, hmem⟩
        · simp [syncPodEventActions, h, ht, routePolicySelfHeal] at hmem
          exact ⟨hnode.symm, hip, fun hx => hhost hx.symm, hmem⟩
    · simp [syncPodEventActions, h] at hmem
  · intro hmem
    simp only [applyRoutePolicyForExistingPods, List.mem_flatMap] at hmem
    obtain ⟨p, hp, hin⟩ := hmem
    by_cases hc : reconcilePodInScope srv p
    · obtain ⟨⟨hnode, hip⟩, hhost⟩ :
          (p.nodeName = srv.nodeName ∧ p.podIP ≠ "") ∧ p.podIP ≠ srv.hostIP := by
        simpa [reconcilePodInScope, and_assoc] using hc
      rw [if_pos hc] at hin
      simp at hin
      exact ⟨p, hp, hnode, hip, hhost, hin⟩
    · rw [if_neg hc] at hin
      simp at hin
  · intro hmem
    by_cases hg : srv.nodeName == pod.nodeName && srv.hostIP != pod.podIP
    · obtain ⟨hnode, hhost⟩ : srv.nodeName = pod.nodeName ∧ srv.hostIP ≠ pod.podIP := by
        simpa using hg
      cases hL : podMapLookup m pod.uid with
      | some recordedIP =>
        simp [incrSyncEvent, hg, hL] at hmem
      | none =>
        simp [incrSyncEvent, hg, hL] at hmem
        exact ⟨hnode.symm, fun hx => hhost hx.symm, hmem, rfl⟩
    · simp [incrSyncEvent, hg] at hmem

/-- C5 witness: the event-phase apply call for `podGood` implies all
three scope conditions at a concrete input. -/
theorem applyScope_witness :
    podGood.nodeName = cfg0.nodeName ∧ podGood.podIP ≠ "" ∧
    podGood.podIP ≠ cfg0.hostIP ∧ "10.0.0.5" = podGood.podIP :=
  (applyScope cfg0 podGood ((none, "") : Option String × String) [] [] "10.0.0.5").1
    (by decide)

/-- C6: in the event-driven phase, an in-scope pod whose apply call
errors with a classification other than `NotFound` triggers self-heal —
the trace continues with `routePolicySelfHeal`, i.e. a 10-time-unit sleep
followed by full reconciliation — while an apply error classified
`NotFound` (and an apply success) never does. -/
theorem syncSelfHeal {eo : Type} (srv : ServerCfg) (pod : Pod) (eobj : eo)
    (hs : syncPodInScope srv pod = true) :
    (∀ t, t ≠ NotFound →
      syncPodEventActions srv pod (some eobj, t) =
        SyncAction.applyPolicy pod.podIP :: routePolicySelfHeal) ∧
    syncPodEventActions srv pod (some eobj, NotFound) =
      [SyncAction.applyPolicy pod.podIP] ∧
    (∀ t, syncPodEventActions srv pod ((none : Option eo), t) =
      [SyncAction.applyPolicy pod.podIP]) ∧
    routePolicySelfHeal = [SyncAction.sleep 10, SyncAction.reconcileAll] := by
  refine ⟨?_, ?_, ?_, rfl⟩
  · intro t ht
    simp [syncPodEventActions, hs, ht]
  · simp [syncPodEventActions, hs]
  · intro t
    simp [syncPodEventActions, hs]

/-- C6 witness: an `UnKnown`-classified apply failure for `podGood`
triggers self-heal at a concrete input. -/
theorem syncSelfHeal_witness :
    syncPodEventActions cfg0 podGood (some "boom", UnKnown) =
      SyncAction.applyPolicy podGood.podIP :: routePolicySelfHeal :=
  (syncSelfHeal cfg0 podGood "boom" (by decide)).1 UnKnown (by decide)

/-- C7: teardown issues exactly one policy-remove call per listed pod
whose node name equals this node (with no empty-IP or host-IP exclusion),
then always sleeps the 10-time-unit grace period, and only then exits
with code 0 when listing pods succeeded, and with code 1 — after the same
grace sleep and with no remove calls — when listing failed. -/
theorem teardown_trace {eo : Type} (srv : ServerCfg) (pods : List Pod) (lerr : eo) :
    deleteRoutePolicyForExistingPods srv (Except.ok pods : Except eo (List Pod)) =
      (pods.filter (fun p => p.nodeName == srv.nodeName)).map
        (fun p => SyncAction.removePolicy p.podIP)
      ++ [SyncAction.sleep 10, SyncAction.exitProcess 0] ∧
    deleteRoutePolicyForExistingPods srv (Except.error lerr) =
      [SyncAction.sleep 10, SyncAction.exitProcess 1] := by
  constructor
  · show (pods.flatMap fun podItem =>
        if podItem.nodeName == srv.nodeName then [SyncAction.removePolicy podItem.podIP]
        else []) ++ [SyncAction.sleep 10, SyncAction.exitProcess 0] = _
    rw [flatMap_guard_eq_filter_map]
  · rfl

/-- C7 concrete evaluation: a node-matching pod is removed even with an
empty pod IP, then the grace sleep and a clean exit follow. -/
theorem teardown_concrete_eval :
    deleteRoutePolicyForExistingPods cfg0
        (Except.ok [podGood, podEmptyIP] : Except String (List Pod)) =
      [SyncAction.removePolicy "10.0.0.5", SyncAction.removePolicy "",
        SyncAction.sleep 10, SyncAction.exitProcess 0] := by decide

/-- C8 counterexample: `incrSyncEvent` records the pod-UID-to-IP entry
whenever it processes an add event for an in-scope unmapped pod, even
though the apply call it issues fails — here the backend is down, so
`ApplyEndpointRoutePolicy` for the recorded IP necessarily returns an
`InvalidOperation`-classified error, yet the entry `(uid-1, 10.0.0.5)` is
created; creation is not conditional on apply success. -/
theorem incrSync_records_entry_despite_failed_apply :
    (incrSyncEvent cfg0 [] podGood).1 = [SyncAction.applyPolicy "10.0.0.5"] ∧
    (incrSyncEvent cfg0 [] podGood).2 = [("uid-1", "10.0.0.5")] ∧
    (applyEndpointRoutePolicy (fun _ => (Except.error "backend down" : Except String Bytes))
        "10.0.0.5" tIP "80" "10.240.0.4" "2579").1 =
      some (RoutePolicyErr.getEndpoint ⟨InvalidOperation, some "backend down"⟩) :=
  ⟨rfl, rfl, rfl⟩

/-- C8 (amended): when the incremental event phase processes an event for
a guard-passing pod, a map entry is created if the pod is unmapped —
stored before the apply call is issued and regardless of the apply's
outcome — and when the pod is already mapped the deletion is processed:
the remove call targets the recorded IP (not the pod's current IP) and
the entry is removed. -/
theorem incrSyncPodMap (srv : ServerCfg) (m : List (String × String)) (pod : Pod)
    (hg : (srv.nodeName == pod.nodeName && srv.hostIP != pod.podIP) = true) :
    (podMapLookup m pod.uid = none →
      incrSyncEvent srv m pod =
        ([SyncAction.applyPolicy pod.podIP], m ++ [(pod.uid, pod.podIP)])) ∧
    (∀ recordedIP, podMapLookup m pod.uid = some recordedIP →
      incrSyncEvent srv m pod =
        ([SyncAction.removePolicy recordedIP], podMapDelete m pod.uid)) := by
  constructor
  · intro hL; simp [incrSyncEvent, hg, hL]
  · intro recordedIP hL; simp [incrSyncEvent, hg, hL]

/-- C8 witness: a deletion event for `podGood` (current IP `10.0.0.5`)
removes the policy for the recorded IP `10.0.0.9` and clears the entry. -/
theorem incrSyncPodMap_witness :
    incrSyncEvent cfg0 [("uid-1", "10.0.0.9")] podGood =
      ([SyncAction.removePolicy "10.0.0.9"], []) :=
  (incrSyncPodMap cfg0 [("uid-1", "10.0.0.9")] podGood (by decide)).2
    "10.0.0.9" (by decide)

/-- C9 counterexample: when the node already carries the fixed-key
marker, a failed probe appends a second one — the computed taint list
after the probe holds two markers with the fixed key, refuting "at most
one marker with the fixed key is present after each probe". -/
theorem healthProbe_duplicate_taint :
    (nmiWindowsHealthProbe true [hcnAgentFailedTaint]).1 = 500 ∧
    ((nmiWindowsHealthProbe true [hcnAgentFailedTaint]).2.filter
      (fun t => t.key == "hcnagentfailed")).length = 2 := by decide

/-- C9 (amended): on enumerate failure the handler appends the single
well-known fixed-key marker (without checking for an existing one) and
responds 500; on success it removes every marker with the fixed key and
responds 200; in both cases markers with any other key are left unchanged
in order, and after a success probe no fixed-key marker remains (so
repeated failures, not successes, can accumulate duplicates). -/
theorem healthProbe_taints (taints : List Taint) :
    nmiWindowsHealthProbe true taints = (500, taints ++ [hcnAgentFailedTaint]) ∧
    nmiWindowsHealthProbe false taints =
      (200, removeTaintFn taints hcnAgentFailedTaint.key) ∧
    (nmiWindowsHealthProbe false taints).2.filter
      (fun t => t.key == hcnAgentFailedTaint.key) = [] ∧
    ∀ b : Bool,
      (nmiWindowsHealthProbe b taints).2.filter
        (fun t => t.key != hcnAgentFailedTaint.key)
      = taints.filter (fun t => t.key != hcnAgentFailedTaint.key) := by
  refine ⟨rfl, rfl, ?_, ?_⟩
  · show (removeTaintFn taints hcnAgentFailedTaint.key).filter _ = []
    simp [removeTaintFn, List.filter_filter]
  · intro b
    cases b
    · show (removeTaintFn taints hcnAgentFailedTaint.key).filter _ = _
      simp [removeTaintFn, List.filter_filter]
    · show (taints ++ [hcnAgentFailedTaint]).filter _ = _
      simp [List.filter_append]

/-- C10: when the pod IP is non-empty and the Endpoint Locator reports a
`NotFound`-classified error, both `ApplyEndpointRoutePolicy` and
`DeleteEndpointRoutePolicy` return a nil error with an empty
classification (silent success); and whenever either operation returns
the `NotFound` classification, the pod IP argument was empty, the
returned error is the missing-IP error, and zero raw backend calls were
issued. -/
theorem routePolicy_notFound_classification {e : Type} (raw : Nat → Except e Bytes)
    (podIP metadataIP metadataPort nmiIP nmiPort : String) :
    (∀ epErr sleeps used,
      getEndpointByIP raw podIP = (Except.error epErr, sleeps, used) →
      epErr.errType = NotFound → podIP ≠ "" →
      applyEndpointRoutePolicy raw podIP metadataIP metadataPort nmiIP nmiPort =
        (none, "", used) ∧
      deleteEndpointRoutePolicy raw podIP metadataIP = (none, "", used)) ∧
    ((applyEndpointRoutePolicy raw podIP metadataIP metadataPort nmiIP nmiPort).2.1 =
        NotFound →
      podIP = "" ∧
      applyEndpointRoutePolicy raw podIP metadataIP metadataPort nmiIP nmiPort =
        (some RoutePolicyErr.missingIP, NotFound, 0)) ∧
    ((deleteEndpointRoutePolicy raw podIP metadataIP).2.1 = NotFound →
      podIP = "" ∧
      deleteEndpointRoutePolicy raw podIP metadataIP =
        (some RoutePolicyErr.missingIP, NotFound, 0)) := by
  refine ⟨?_, ?_, ?_⟩
  · intro epErr sleeps used hget htype hip
    have hio : epErr.errType ≠ InvalidOperation := by
      rw [htype]; exact string_nf_ne_io
    constructor
    · simp [applyEndpointRoutePolicy, hip, hget, hio, htype]
      exact string_nf_ne_io
    · simp [deleteEndpointRoutePolicy, hip, hget, hio, htype]
      exact string_nf_ne_io
  · intro hcl
    by_cases hip : podIP = ""
    · exact ⟨hip, by simp [applyEndpointRoutePolicy, hip]⟩
    · exfalso
      refine absurd hcl ?_
      rcases hE : getEndpointByIP raw podIP with ⟨res, sl, u⟩
      cases res with
      | error epErr =>
        by_cases hio : epErr.errType = InvalidOperation
        · simp [applyEndpointRoutePolicy, hip, hE, hio]
          exact fun hx => string_nf_ne_io hx.symm
        · by_cases hnf : epErr.errType = NotFound
          · simp [applyEndpointRoutePolicy, hip, hE, hio, hnf]
            exact string_empty_ne_nf
          · simp [applyEndpointRoutePolicy, hip, hE, hio, hnf]
            exact string_uk_ne_nf
      | ok endpoint =>
        rcases hA : addEndpointPolicy raw u endpoint metadataIP metadataPort nmiIP nmiPort
          with ⟨o, u2⟩
        cases o with
        | some eobj =>
          simp [applyEndpointRoutePolicy, hip, hE, hA]
          exact string_uk_ne_nf
        | none =>
          simp [applyEndpointRoutePolicy, hip, hE, hA]
          exact string_empty_ne_nf
  · intro hcl
    by_cases hip : podIP = ""
    · exact ⟨hip, by simp [deleteEndpointRoutePolicy, hip]⟩
    · exfalso
      refine absurd hcl ?_
      rcases hE : getEndpointByIP raw podIP with ⟨res, sl, u⟩
      cases res with
      | error epErr =>
        by_cases hio : epErr.errType = InvalidOperation
        · simp [deleteEndpointRoutePolicy, hip, hE, hio]
          exact fun hx => string_nf_ne_io hx.symm
        · by_cases hnf : epErr.errType = NotFound
          · simp [deleteEndpointRoutePolicy, hip, hE, hio, hnf]
            exact string_empty_ne_nf
          · simp [deleteEndpointRoutePolicy, hip, hE, hio, hnf]
            exact string_uk_ne_nf
      | ok endpoint =>
        rcases hA : deleteEndpointPolicy raw u endpoint metadataIP with ⟨o, u2⟩
        cases o with
        | some eobj =>
          simp [deleteEndpointRoutePolicy, hip, hE, hA]
          exact string_uk_ne_nf
        | none =>
          simp [deleteEndpointRoutePolicy, hip, hE, hA]
          exact string_empty_ne_nf

/-- C10 witness: against a backend that always returns matchless
enumerations, both operations on a non-empty pod IP return a nil error
with an empty classification after the locator consumed its budget. -/
theorem routePolicy_notFound_classification_witness :
    applyEndpointRoutePolicy rawEmptyEnum "10.0.0.5" tIP "80" "10.240.0.4" "2579" =
      (none, "", 5) ∧
    deleteEndpointRoutePolicy rawEmptyEnum "10.0.0.5" tIP = (none, "", 5) :=
  (routePolicy_notFound_classification rawEmptyEnum "10.0.0.5" tIP "80" "10.240.0.4"
      "2579").1 ⟨NotFound, none⟩ [1, 2, 4, 8] 5 rfl rfl (by decide)

end AadPodIdentity
